import Mathlib

/-!
Verification development for the self-evolving-agent repository.

We shallowly embed the parts of the code that the properties below are
about: the memory store (`memory_manager.py`), the tool registry
(`tool_manager.py`), the scheduler's task dispatch (`scheduler.py`) and
the conversation loop (`agent.py`).

Modelling conventions, used throughout:
* Python `dict`s are embedded as association lists that preserve
  insertion order, exactly as CPython dicts do: updating an existing key
  keeps its position, a fresh key is appended at the end.  Deletion
  removes every binding of the key; on the dict invariant (at most one
  binding per key, which all states built by these operations satisfy)
  this coincides with Python's `del`.
* `datetime.now().isoformat()` is an input: functions that stamp times
  take the current timestamp string as an explicit argument.
* Python code whose behaviour cannot be predicted statically (the
  dynamic import of a freshly written tool module, the model backend,
  the croniter library) is an explicit oracle argument; the embedding is
  faithful in how the surrounding code reacts to each possible outcome.
* `try/except` blocks are translated by making the embedded function
  total and returning the handler's value on the modelled failure paths.
-/

/-- Lookup in an insertion-ordered association list (Python `d[k]` /
`k in d`): the first binding of the key, if any. -/
def dget {α : Type} (d : List (String × α)) (k : String) : Option α :=
  match d with
  | [] => none
  | (k₁, v) :: rest => if k₁ = k then some v else dget rest k

/-- Python `d[k] = v`: update the first binding in place, or append a
fresh binding at the end (CPython dicts preserve insertion order). -/
def dset {α : Type} (d : List (String × α)) (k : String) (v : α) :
    List (String × α) :=
  match d with
  | [] => [(k, v)]
  | (k₁, v₁) :: rest =>
      if k₁ = k then (k₁, v) :: rest else (k₁, v₁) :: dset rest k v

/-- Python `del d[k]`: drop every binding of the key (on the dict
invariant of unique keys this is exactly the one entry Python drops). -/
def ddel {α : Type} (d : List (String × α)) (k : String) :
    List (String × α) :=
  d.filter (fun p => p.1 ≠ k)

theorem dget_dset_self {α : Type} (d : List (String × α)) (k : String) (v : α) :
    dget (dset d k v) k = some v := by
  induction d with
  | nil => simp [dget, dset]
  | cons hd tl ih =>
      obtain ⟨k₁, v₁⟩ := hd
      by_cases h : k₁ = k <;> simp [dget, dset, h, ih]

theorem dget_dset_ne {α : Type} (d : List (String × α)) (k k₂ : String) (v : α)
    (h : k₂ ≠ k) : dget (dset d k v) k₂ = dget d k₂ := by
  have h₂ : ¬(k = k₂) := fun hh => h hh.symm
  induction d with
  | nil => simp [dget, dset, h₂]
  | cons hd tl ih =>
      obtain ⟨k₁, v₁⟩ := hd
      by_cases h₁ : k₁ = k
      · subst h₁
        simp [dget, dset, h₂]
      · simp [dget, dset, h₁, ih]

theorem dget_ddel_self {α : Type} (d : List (String × α)) (k : String) :
    dget (ddel d k) k = none := by
  induction d with
  | nil => simp [dget, ddel]
  | cons hd tl ih =>
      obtain ⟨k₁, v₁⟩ := hd
      by_cases h : k₁ = k <;> simp [dget, ddel, h] at ih ⊢ <;> simpa [ddel] using ih

/-! ## Memory store (`memory_manager.py`) -/

/-- One stored memory value: `{"content", "created_at", "updated_at"}`
(`MemoryManager.remember`). -/
structure MemEntry where
  content : String
  created_at : String
  updated_at : String
deriving DecidableEq, Repr

/-- The memory document: `{category: {key: entry}}`. -/
abbrev Memories := List (String × List (String × MemEntry))

namespace MemoryManager

/-- `MemoryManager.remember(category, key, content)`.  The current
timestamp (`datetime.now().isoformat()`) is the explicit `now` argument;
the code stamps it into both `created_at` and `updated_at` of a fresh
entry object that replaces whatever was stored under the key.  Returns
the new store and the confirmation string. -/
def remember (mems : Memories) (category key content now : String) :
    Memories × String :=
  let mems₁ := if (dget mems category).isNone then dset mems category [] else mems
  let items := (dget mems₁ category).getD []
  let mems₂ := dset mems₁ category (dset items key ⟨content, now, now⟩)
  (mems₂, "✅ 已记住 [" ++ category ++ "] " ++ key)

/-- The fixed priority list of `get_core_memories`. -/
def priority_categories : List String := ["wallet", "api", "secret", "preference"]

/-- The `(category, key, content)` triples that one priority category
contributes to the core-memory projection, in stored order. -/
def cat_entries (mems : Memories) (cat : String) : List (String × String × String) :=
  match dget mems cat with
  | none => []
  | some items => items.map (fun p => (cat, p.1, p.2.content))

/-- The triples contributed by the non-priority categories, in the
document's insertion order (the second `for` loop of
`get_core_memories`). -/
def other_entries (mems : Memories) : List (String × String × String) :=
  mems.flatMap (fun p =>
    if p.1 ∈ priority_categories then []
    else p.2.map (fun q => (p.1, q.1, q.2.content)))

/-- The projection order of `MemoryManager.get_core_memories`: the four
priority categories in their fixed order, then everything else. -/
def core_memory_entries (mems : Memories) : List (String × String × String) :=
  (priority_categories.flatMap (cat_entries mems)) ++ other_entries mems

/-- Renders one bullet line of `get_core_memories`. -/
def core_line (e : String × String × String) : String :=
  "- [" ++ e.1 ++ "] " ++ e.2.1 ++ ": " ++ e.2.2

/-- `MemoryManager.get_core_memories()`: the newline-joined bullet list,
empty string when there is nothing to show. -/
def get_core_memories (mems : Memories) : String :=
  if mems.isEmpty then ""
  else
    let lines := (core_memory_entries mems).map core_line
    if lines.isEmpty then "" else String.intercalate "\n" lines

end MemoryManager

/-! ## Tool registry (`tool_manager.py`) -/

/-- Substring test, Python's `pat in s` on strings. -/
def str_contains (s pat : String) : Bool :=
  s.toList.tails.any (fun t => pat.toList.isPrefixOf t)

/-- Models Python's `str.isalnum` on a single character.  On ASCII it is
exactly letters `a`-`z`/`A`-`Z` and digits `0`-`9`.  Python's `isalnum`
is Unicode-aware, accepting every Unicode letter/digit; we include, in
addition to ASCII, the non-ASCII alphanumeric codepoints that appear in
this development (`é`, U+00E9, a Unicode lowercase letter, for which
CPython's `'é'.isalnum()` returns `True`). -/
def py_isalnum_char (c : Char) : Bool :=
  c.isAlpha || c.isDigit || c = 'é'

/-- Python's `str.isalnum`: true iff the string is nonempty and every
character is alphanumeric. -/
def py_isalnum (s : String) : Bool :=
  !s.isEmpty && s.toList.all py_isalnum_char

/-- Python's `name.replace("_", "")`: remove every underscore. -/
def strip_underscores (s : String) : String :=
  String.mk (s.toList.filter (fun c => c ≠ '_'))

/-- Python's `s.startswith(pat)`. -/
def py_startswith (s pat : String) : Bool :=
  pat.toList.isPrefixOf s.toList

/-- One persisted manifest record
(`{description, parameters, created_at, updated_at}`).  The
`parameters` JSON schema flows through the registry untouched, so it is
carried as an opaque string. -/
structure ManifestEntry where
  description : String
  parameters : String
  created_at : String
  updated_at : String
deriving DecidableEq, Repr

/-- One in-memory registration in `self.tools` (minus the raised
`function` object, whose behaviour is modelled separately as a handler
oracle for `execute`). -/
structure ToolReg where
  description : String
  parameters : String
  is_builtin : Bool
deriving DecidableEq, Repr

/-- The state a `ToolManager` owns: the in-memory registry `self.tools`,
the custom-tool source files on disk (name to source text), and the
parsed `manifest.json` document. -/
structure TMState where
  tools : List (String × ToolReg)
  files : List (String × String)
  manifest : List (String × ManifestEntry)
deriving DecidableEq, Repr

/-- Outcome of dynamically importing a freshly written tool module
(`importlib` inside `_load_single_tool`); arbitrary Python source cannot
be evaluated statically, so the import result is an oracle argument. -/
inductive LoadOutcome where
  /-- `exec_module` succeeded and the module has a `run` attribute. -/
  | ok : LoadOutcome
  /-- `exec_module` raised, with the exception's `str`. -/
  | exec_raises (msg : String) : LoadOutcome
  /-- The module executed but lacks a `run` attribute. -/
  | no_run : LoadOutcome
deriving DecidableEq, Repr

namespace ToolManager

/-- `ToolManager._load_single_tool(name, meta)`: returns the registry
state on success, or the message of the raised exception.  When the code
file does not exist the Python function returns early doing nothing. -/
def load_single_tool (s : TMState) (name : String) (meta : ManifestEntry)
    (outcome : LoadOutcome) : Except String TMState :=
  match dget s.files name with
  | none => Except.ok s
  | some _ =>
      match outcome with
      | LoadOutcome.exec_raises msg => Except.error msg
      | LoadOutcome.no_run => Except.error ("工具 " ++ name ++ " 缺少 run() 函数")
      | LoadOutcome.ok =>
          Except.ok { s with
            tools := dset s.tools name ⟨meta.description, meta.parameters, false⟩ }

/-- The denylisted substrings of `_create_tool`. -/
def dangerous_patterns : List String :=
  ["rm -rf /", "rm -rf /*", "open('/etc/shadow"]

/-- The first denylisted pattern occurring in the code, if any. -/
def find_dangerous (code : String) : Option String :=
  dangerous_patterns.find? (fun p => str_contains code p)

/-- `ToolManager._create_tool(name, description, parameters, code)`.
Validations in source order: duplicate name, character set
(`name.replace("_", "").isalnum()`), leading underscore, presence of the
`run` entry point, denylist.  Then the source file is written, the
manifest entry added, and a dynamic load attempted; on load failure both
writes are rolled back.  `now` is the current timestamp and `outcome`
the import oracle.  Returns the reply string and the new state. -/
def create_tool (s : TMState) (name description parameters code now : String)
    (outcome : LoadOutcome) : String × TMState :=
  if (dget s.tools name).isSome then
    ("❌ 工具 " ++ name ++ " 已存在。如需更新请使用 update_tool", s)
  else if !py_isalnum (strip_underscores name) then
    ("❌ 工具名只能包含字母、数字、下划线", s)
  else if py_startswith name "_" then
    ("❌ 工具名不能以下划线开头", s)
  else if !(str_contains code "def run(" || str_contains code "def run (") then
    ("❌ 代码必须包含 def run(...) 函数作为入口", s)
  else
    match find_dangerous code with
    | some pat => ("❌ 安全限制：代码包含禁止的操作 (" ++ pat ++ ")", s)
    | none =>
        let meta : ManifestEntry := ⟨description, parameters, now, now⟩
        let s₂ : TMState := { s with
          files := dset s.files name code,
          manifest := dset s.manifest name meta }
        match load_single_tool s₂ name meta outcome with
        | Except.ok s₃ =>
            ("✅ 工具 「" ++ name ++ "」 创建成功！现在可以直接使用了。", s₃)
        | Except.error e =>
            let s₄ : TMState := { s₂ with
              files := ddel s₂.files name,
              manifest := ddel s₂.manifest name }
            ("❌ 工具创建失败，代码有错误: " ++ e ++ "\n\n请检查代码后重试。", s₄)

/-- What calling a tool's registered `function(**params)` does: returns
a value (recorded by its `str()` rendering and its Python truthiness) or
raises (recorded by `str(e)` and `traceback.format_exc()`).  `execute`
looks the handler up by tool name; a parameter/signature mismatch is a
`TypeError` raised at the call, i.e. a `raises` outcome. -/
inductive HandlerOutcome where
  | returns (value : String) (truthy : Bool) : HandlerOutcome
  | raises (msg : String) (trace : String) : HandlerOutcome
deriving DecidableEq, Repr

/-- `ToolManager.execute(name, params)`.  `handlers` is the behaviour of
each registered tool's `function` on the given opaque `params`;
`try/except` is translated into totality: every path yields a string. -/
def execute (tools : List (String × ToolReg))
    (handlers : String → String → HandlerOutcome)
    (name params : String) : String :=
  match dget tools name with
  | none => "❌ 未知工具: " ++ name
  | some _ =>
      match handlers name params with
      | HandlerOutcome.returns v truthy => if truthy then v else "✅ 执行完成"
      | HandlerOutcome.raises msg trace =>
          "❌ 工具执行失败: " ++ msg ++ "\n\n详细错误:\n" ++ trace

end ToolManager

/-! ## Scheduler (`scheduler.py`) -/

/-- One scheduled task record, the dict built by `Scheduler.create_task`
and persisted in `scheduled_tasks.json`.  Timestamps and the cron
expression are opaque strings; `max_runs`, `run_count` and `user_id` are
Python ints. -/
structure STask where
  id : String
  type : String
  cron : String
  prompt : Option String
  command : Option String
  max_runs : Int
  run_count : Int
  user_id : Int
  created_at : String
  last_run : Option String
  next_run : String
  enabled : Bool
deriving DecidableEq, Repr

namespace Scheduler

/-- `Scheduler.list_tasks(user_id)`.  The filter is guarded by Python
truthiness (`if user_id:`), which for an `Optional[int]` holds exactly
when the value is neither `None` nor `0`. -/
def list_tasks (tasks : List STask) (user_id : Option Int) : List STask :=
  match user_id with
  | none => tasks
  | some u => if u ≠ 0 then tasks.filter (fun t => t.user_id = u) else tasks

/-- The bookkeeping block of `Scheduler._execute_task`: increment
`run_count`, stamp `last_run` with the current time, then either disable
the task (cap reached) or recompute `next_run`.  `now` is the current
timestamp and `nxt` the value croniter yields for the task's cron
expression at this moment. -/
def bookkeep (now nxt : String) (t : STask) : STask :=
  let t₁ : STask := { t with run_count := t.run_count + 1, last_run := some now }
  if t.max_runs > 0 ∧ t₁.run_count ≥ t.max_runs then { t₁ with enabled := false }
  else { t₁ with next_run := nxt }

/-- The `for t in self._tasks: if t["id"] == task_id: ...; break` scan:
apply `f` to the first task with the given id, leave the rest alone. -/
def update_first (tasks : List STask) (task_id : String) (f : STask → STask) :
    List STask :=
  match tasks with
  | [] => []
  | t :: rest =>
      if t.id = task_id then f t :: rest else t :: update_first rest task_id f

/-- `Scheduler._execute_task(task)` as a transition on the task list.
The whole body sits in one `try`: first the dispatch (the agent callback
or `_execute_script`), then the bookkeeping.  `raised` is the oracle for
whether the dispatch raised an exception; when it did, control jumps to
the `except` handler, which only logs — the bookkeeping block never
runs. -/
def execute_task (tasks : List STask) (task_id : String) (raised : Bool)
    (now nxt : String) : List STask :=
  if raised then tasks
  else update_first tasks task_id (bookkeep now nxt)

end Scheduler

/-! ## Conversation loop (`agent.py`) -/

/-- One `tool_use` content block of a model response. -/
structure ToolUseBlock where
  id : String
  name : String
  input : String
deriving DecidableEq, Repr

/-- A content block of a model response. -/
inductive ContentBlock where
  | text (t : String) : ContentBlock
  | tool_use (b : ToolUseBlock) : ContentBlock
deriving DecidableEq, Repr

/-- A model backend response: `stop_reason` plus content blocks. -/
structure ModelResponse where
  stop_reason : String
  content : List ContentBlock
deriving DecidableEq, Repr

/-- Outcome of one `client.messages.create` call in the main loop:
either a response or a raised `anthropic.APIError` (the only exception
the loop catches there). -/
inductive BackendReply where
  | ok (r : ModelResponse) : BackendReply
  | api_error (msg : String) : BackendReply
deriving DecidableEq, Repr

/-- Content of one transcript message: a plain text turn, an assistant
turn holding `response.content`, or a user turn holding `tool_result`
items (`tool_use_id` paired with the result string). -/
inductive MsgContent where
  | text (s : String) : MsgContent
  | blocks (bs : List ContentBlock) : MsgContent
  | tool_results (rs : List (String × String)) : MsgContent
deriving DecidableEq, Repr

/-- One transcript message. -/
structure Message where
  role : String
  content : MsgContent
deriving DecidableEq, Repr

/-- Outcome of the extra summarization call made after the iteration
cap: the response's content blocks, or any raised exception (caught by
the bare `except`). -/
inductive SummaryReply where
  | ok (content : List ContentBlock) : SummaryReply
  | fails : SummaryReply
deriving DecidableEq, Repr

/-- What `chat` produces, plus an instrumentation field counting the
main-loop model calls actually made (the summarization call is not a
main-loop call). -/
structure ChatOutput where
  reply : String
  history : List Message
  calls : Nat
deriving DecidableEq, Repr

namespace Agent

/-- The truncation marker appended by the conversation loop. -/
def truncation_marker : String := "\n\n... [结果过长，已截断]"

/-- The per-result truncation in `chat`: results longer than 10,000
characters are cut to their first 10,000 characters plus the marker. -/
def truncate_result (r : String) : String :=
  if r.length > 10000 then r.take 10000 ++ truncation_marker else r

/-- Concatenation of the `text` attributes of a response's blocks
(`for block in response.content: if hasattr(block, "text"): ...`). -/
def collect_text (blocks : List ContentBlock) : String :=
  match blocks with
  | [] => ""
  | ContentBlock.text t :: rest => t ++ collect_text rest
  | ContentBlock.tool_use _ :: rest => collect_text rest

/-- The tool-dispatch pass of one loop iteration: for every `tool_use`
block, run it through `ToolManager.execute` (here the already-total
result function `exec`), truncate, and collect a `tool_result` item.
The optional `on_tool_start` observer is fire-and-forget — its failures
are swallowed and it never affects state — so it has no footprint in the
embedding. -/
def run_tools (exec : String → String → String) (blocks : List ContentBlock) :
    List (String × String) :=
  blocks.filterMap (fun b =>
    match b with
    | ContentBlock.tool_use tb =>
        some (tb.id, truncate_result (exec tb.name tb.input))
    | ContentBlock.text _ => none)

/-- The two fixed texts of the over-cap exit. -/
def too_complex_banner : String := "⚠️ 任务过于复杂，已达到最大执行次数。"

/-- The `while iteration < max_iterations` loop of `chat`, plus the
summarization epilogue.  `backend i msgs` is the reply of the `i`-th
main-loop model call (`client.messages.create` on transcript `msgs`),
`summary` the oracle for the extra summarization call, `remaining` the
number of loop iterations still allowed, `calls` the number of main
calls already made. -/
def chat_go (backend : Nat → List Message → BackendReply)
    (exec : String → String → String) (summary : List Message → SummaryReply)
    (user_message : String) (history : List Message)
    (messages : List Message) (remaining calls : Nat) : ChatOutput :=
  match remaining with
  | 0 =>
      match summary messages with
      | SummaryReply.ok blocks =>
          ⟨too_complex_banner ++ "\n\n**问题总结：**\n" ++ collect_text blocks,
            history, calls⟩
      | SummaryReply.fails =>
          ⟨too_complex_banner ++ "请尝试分解任务。", history, calls⟩
  | n + 1 =>
      match backend calls messages with
      | BackendReply.api_error e => ⟨"❌ API 调用失败: " ++ e, history, calls + 1⟩
      | BackendReply.ok resp =>
          if resp.stop_reason = "tool_use" then
            chat_go backend exec summary user_message history
              (messages ++
                [⟨"assistant", MsgContent.blocks resp.content⟩,
                 ⟨"user", MsgContent.tool_results (run_tools exec resp.content)⟩])
              n (calls + 1)
          else
            let final_text := collect_text resp.content
            ⟨final_text,
              history ++
                [⟨"user", MsgContent.text user_message⟩,
                 ⟨"assistant", MsgContent.text final_text⟩],
              calls + 1⟩

/-- `agent.chat(user_message, history, max_iterations)` for a plain text
user message (the image-list branch of the Python code differs only in
the placeholder stored into history on the final-answer path and is not
needed by the properties below).  The transcript sent to the backend is
`history + [user message]`, built as a fresh list — the caller's
`history` object is never written to. -/
def chat (backend : Nat → List Message → BackendReply)
    (exec : String → String → String) (summary : List Message → SummaryReply)
    (user_message : String) (history : List Message) (max_iterations : Nat) :
    ChatOutput :=
  chat_go backend exec summary user_message history
    (history ++ [⟨"user", MsgContent.text user_message⟩]) max_iterations 0

end Agent

/-! ## Theorems -/

/-- Claim C5, counterexample: two `remember` calls for the same
`(category, key)` at distinct times leave `created_at` equal to the
time of the *second* call — the original `created_at` is overwritten,
not preserved. -/
theorem remember_restamps_created_at_cex :
    (dget ((dget (MemoryManager.remember
        (MemoryManager.remember [] "api" "k" "v1" "2024-01-01").1
        "api" "k" "v2" "2024-02-02").1 "api").getD []) "k").map MemEntry.created_at
      = some "2024-02-02" ∧ ("2024-02-02" : String) ≠ "2024-01-01" := by
  constructor
  · rfl
  · decide

/-- Claim C5, amended: `remember(category, key, content)` upserts the
entry, but stamps *both* `created_at` and `updated_at` with the current
time on every write — it replaces the whole entry object, so a later
`remember` with the same category and key also overwrites the original
`created_at`. -/
theorem remember_always_stamps_both (mems : Memories)
    (category key content now : String) :
    dget ((dget (MemoryManager.remember mems category key content now).1
        category).getD []) key = some ⟨content, now, now⟩ := by
  unfold MemoryManager.remember
  by_cases h : (dget mems category).isNone <;>
    simp [h, dget_dset_self]

theorem cat_entries_fst (mems : Memories) (cat : String) :
    ∀ e ∈ MemoryManager.cat_entries mems cat, e.1 = cat := by
  intro e he
  unfold MemoryManager.cat_entries at he
  cases h : dget mems cat with
  | none => simp [h] at he
  | some items =>
      rw [h] at he
      obtain ⟨p, _, hp⟩ := List.mem_map.mp he
      rw [← hp]

theorem other_entries_fst (mems : Memories) :
    ∀ e ∈ MemoryManager.other_entries mems,
      e.1 ∉ MemoryManager.priority_categories := by
  intro e he
  unfold MemoryManager.other_entries at he
  obtain ⟨p, _, hp⟩ := List.mem_flatMap.mp he
  by_cases hmem : p.1 ∈ MemoryManager.priority_categories
  · simp [hmem] at hp
  · rw [if_neg hmem] at hp
    obtain ⟨q, _, hq⟩ := List.mem_map.mp hp
    rw [← hq]
    exact hmem

/-- Claim C8: the `get_core_memories` projection order puts every entry
of the priority categories — wallet, api, secret, preference, in that
fixed order — before any entry of a non-priority category, for every
store and hence for every insertion order.  In particular a
`preference` entry always precedes a `zzz_custom` entry (the latter sits
in the trailing non-priority segment). -/
theorem core_memories_priority_before_others (mems : Memories) :
    ∃ lw la ls lp lo,
      MemoryManager.core_memory_entries mems = lw ++ la ++ ls ++ lp ++ lo ∧
      (∀ e ∈ lw, e.1 = "wallet") ∧
      (∀ e ∈ la, e.1 = "api") ∧
      (∀ e ∈ ls, e.1 = "secret") ∧
      (∀ e ∈ lp, e.1 = "preference") ∧
      (∀ e ∈ lo, e.1 ∉ MemoryManager.priority_categories) := by
  refine ⟨MemoryManager.cat_entries mems "wallet",
    MemoryManager.cat_entries mems "api",
    MemoryManager.cat_entries mems "secret",
    MemoryManager.cat_entries mems "preference",
    MemoryManager.other_entries mems, ?_,
    cat_entries_fst mems "wallet", cat_entries_fst mems "api",
    cat_entries_fst mems "secret", cat_entries_fst mems "preference",
    other_entries_fst mems⟩
  simp [MemoryManager.core_memory_entries, MemoryManager.priority_categories]

/-- Claim C10: `list_tasks` filters by owner only under Python
truthiness of `user_id`, so `user_id = 0` (like `None`) returns every
stored task; the second conjunct exhibits a task list where the result
for owner `0` differs from "the tasks whose user_id equals 0". -/
theorem list_tasks_zero_returns_all :
    (∀ tasks : List STask,
      Scheduler.list_tasks tasks (some 0) = tasks ∧
      Scheduler.list_tasks tasks none = tasks) ∧
    (∃ tasks : List STask,
      Scheduler.list_tasks tasks (some 0) ≠
        tasks.filter (fun t => t.user_id = 0)) := by
  constructor
  · intro tasks
    exact ⟨by simp [Scheduler.list_tasks], rfl⟩
  · refine ⟨[⟨"a", "agent", "* * * * *", some "p", none, 0, 0, 1, "c", none,
      "n", true⟩], ?_⟩
    decide

/-- Claim C4: `execute(name, params)` is total (it returns a string on
every path — `try/except` in the source catches every handler
exception): an unknown name yields the error-describing string, and a
raising handler (including a `TypeError` from parameters that do not
match the handler's signature) yields a diagnostic string containing
both the exception message and the stack trace. -/
theorem execute_errors_become_strings (tools : List (String × ToolReg))
    (handlers : String → String → ToolManager.HandlerOutcome)
    (name params : String) :
    (dget tools name = none →
      ToolManager.execute tools handlers name params = "❌ 未知工具: " ++ name) ∧
    (∀ msg trace, (dget tools name).isSome →
      handlers name params = ToolManager.HandlerOutcome.raises msg trace →
      ∃ pre mid, ToolManager.execute tools handlers name params
        = pre ++ msg ++ mid ++ trace) := by
  constructor
  · intro h
    simp [ToolManager.execute, h]
  · intro msg trace hs hh
    obtain ⟨reg, hr⟩ := Option.isSome_iff_exists.mp hs
    exact ⟨"❌ 工具执行失败: ", "\n\n详细错误:\n",
      by simp [ToolManager.execute, hr, hh]⟩

theorem execute_errors_become_strings_witness :
    ToolManager.execute []
      (fun _ _ => ToolManager.HandlerOutcome.returns "" true) "foo" "p"
      = "❌ 未知工具: foo" :=
  (execute_errors_become_strings []
    (fun _ _ => ToolManager.HandlerOutcome.returns "" true) "foo" "p").1 rfl

/-- Claim C9: a tool result longer than 10,000 characters is replaced by
its first 10,000 characters plus the visible truncation marker, a result
of at most 10,000 characters is left unchanged, and the tool-dispatch
pass of the loop places exactly the truncated result into the
`tool_result` item fed back into the transcript. -/
theorem chat_truncation (r id name input : String)
    (exec : String → String → String) :
    (r.length > 10000 →
      Agent.truncate_result r = r.take 10000 ++ Agent.truncation_marker) ∧
    (r.length ≤ 10000 → Agent.truncate_result r = r) ∧
    Agent.run_tools exec [ContentBlock.tool_use ⟨id, name, input⟩]
      = [(id, Agent.truncate_result (exec name input))] := by
  refine ⟨?_, ?_, ?_⟩
  · intro h
    simp [Agent.truncate_result, h]
  · intro h
    simp [Agent.truncate_result, Nat.not_lt.mpr h]
  · simp [Agent.run_tools]

theorem chat_truncation_witness :
    ("abc" : String).length ≤ 10000 ∧ Agent.truncate_result "abc" = "abc" :=
  ⟨by decide, (chat_truncation "abc" "i" "n" "p" (fun _ _ => "")).2.1 (by decide)⟩

/-- Claim C2, counterexample: a due agent task whose callback raises is
dispatched with `raised = true`; afterwards its `run_count` is still 0
(not incremented), `last_run` is still unset, `next_run` has not been
recomputed and the task is still enabled — the claimed "bookkeeping
regardless of execution success" does not happen, and the still-stale
`next_run` means the task stays due. -/
theorem execute_task_raised_skips_bookkeeping_cex :
    Scheduler.execute_task
        [⟨"a1", "agent", "* * * * *", some "p", none, 3, 0, 7, "c0", none,
          "n0", true⟩] "a1" true "L1" "N1"
      = [⟨"a1", "agent", "* * * * *", some "p", none, 3, 0, 7, "c0", none,
          "n0", true⟩] := by
  decide

theorem update_first_append (pre post : List STask) (t : STask)
    (task_id : String) (f : STask → STask)
    (hpre : ∀ u ∈ pre, u.id ≠ task_id) (ht : t.id = task_id) :
    Scheduler.update_first (pre ++ t :: post) task_id f = pre ++ f t :: post := by
  induction pre with
  | nil => simp [Scheduler.update_first, ht]
  | cons u rest ih =>
      have hu : u.id ≠ task_id := hpre u (List.mem_cons_self u rest)
      simp only [List.cons_append, Scheduler.update_first, if_neg hu]
      exact congrArg (fun l => u :: l)
        (ih (fun v hv => hpre v (List.mem_cons_of_mem u hv)))

/-- Claim C2, amended: the bookkeeping of `_execute_task` happens
exactly when the dispatch does not raise into `_execute_task`'s
`try` block.  When it does not raise, the dispatched task's `run_count`
is incremented, `last_run` stamped, and then either (cap reached, i.e.
`max_runs > 0` and the new `run_count` reaches it) `enabled` is set to
false with `next_run` left as it was, or `next_run` is recomputed from
the cron expression.  When the dispatch raises — as an agent task's
callback can — the failure is only logged and the task record is left
completely unchanged. -/
theorem execute_task_bookkeeping (pre post : List STask) (t : STask)
    (task_id now nxt : String)
    (hpre : ∀ u ∈ pre, u.id ≠ task_id) (ht : t.id = task_id) :
    Scheduler.execute_task (pre ++ t :: post) task_id true now nxt
      = pre ++ t :: post ∧
    Scheduler.execute_task (pre ++ t :: post) task_id false now nxt
      = pre ++ Scheduler.bookkeep now nxt t :: post ∧
    (Scheduler.bookkeep now nxt t).run_count = t.run_count + 1 ∧
    (Scheduler.bookkeep now nxt t).last_run = some now ∧
    ((t.max_runs > 0 ∧ t.run_count + 1 ≥ t.max_runs) →
      (Scheduler.bookkeep now nxt t).enabled = false ∧
      (Scheduler.bookkeep now nxt t).next_run = t.next_run) ∧
    (¬(t.max_runs > 0 ∧ t.run_count + 1 ≥ t.max_runs) →
      (Scheduler.bookkeep now nxt t).enabled = t.enabled ∧
      (Scheduler.bookkeep now nxt t).next_run = nxt) := by
  refine ⟨rfl, ?_, ?_, ?_, ?_, ?_⟩
  · simp only [Scheduler.execute_task, if_neg (by simp : ¬(false = true))]
    exact update_first_append pre post t task_id _ hpre ht
  · unfold Scheduler.bookkeep
    by_cases h : t.max_runs > 0 ∧ t.run_count + 1 ≥ t.max_runs <;> simp [h]
  · unfold Scheduler.bookkeep
    by_cases h : t.max_runs > 0 ∧ t.run_count + 1 ≥ t.max_runs <;> simp [h]
  · intro h
    unfold Scheduler.bookkeep
    simp [h]
  · intro h
    unfold Scheduler.bookkeep
    simp [h]

theorem execute_task_bookkeeping_witness :
    Scheduler.execute_task
        [⟨"a1", "agent", "* * * * *", some "p", none, 3, 2, 7, "c0", none,
          "n0", true⟩] "a1" false "L1" "N1"
      = [⟨"a1", "agent", "* * * * *", some "p", none, 3, 3, 7, "c0",
          some "L1", "n0", false⟩] := by
  have h := execute_task_bookkeeping []
    [] ⟨"a1", "agent", "* * * * *", some "p", none, 3, 2, 7, "c0", none,
      "n0", true⟩ "a1" "L1" "N1" (by intro u hu; cases hu) rfl
  have hb : Scheduler.bookkeep "L1" "N1"
      ⟨"a1", "agent", "* * * * *", some "p", none, 3, 2, 7, "c0", none,
        "n0", true⟩
      = ⟨"a1", "agent", "* * * * *", some "p", none, 3, 3, 7, "c0",
        some "L1", "n0", false⟩ := by decide
  simpa [hb] using h.2.1

/-- Claim C6, counterexample: the name `"hé"` contains `é`, a character
outside letters `a`-`z`/`A`-`Z`, digits and underscore — yet
`create_tool` does not reject it: the charset check is Python's
Unicode-aware `str.isalnum`, which accepts the Unicode letter `é`, so
the tool is created with full side effects (registration, source file,
manifest entry). -/
theorem create_tool_nonascii_name_accepted_cex :
    (('é' ∈ "hé".toList) ∧ 'é'.isAlpha = false ∧ 'é'.isDigit = false ∧
      ('é' : Char) ≠ '_') ∧
    (ToolManager.create_tool ⟨[], [], []⟩ "hé" "d" "ps"
        "def run(): return 1" "t0" LoadOutcome.ok).1
      = "✅ 工具 「hé」 创建成功！现在可以直接使用了。" ∧
    dget (ToolManager.create_tool ⟨[], [], []⟩ "hé" "d" "ps"
        "def run(): return 1" "t0" LoadOutcome.ok).2.tools "hé"
      = some ⟨"d", "ps", false⟩ ∧
    dget (ToolManager.create_tool ⟨[], [], []⟩ "hé" "d" "ps"
        "def run(): return 1" "t0" LoadOutcome.ok).2.files "hé"
      = some "def run(): return 1" := by
  refine ⟨by decide, ?_, ?_, ?_⟩ <;> rfl

/-- Claim C6, amended: `create_tool` rejects — returning an error string
and leaving the state (registry, files, manifest) untouched — names
already registered, names whose underscore-stripped remainder fails
Python's `str.isalnum` (empty, or containing a character that is not a
Unicode letter or digit), and names starting with an underscore.  For
ASCII names this coincides with requiring `[a-zA-Z0-9_]+` not starting
with `_`, but a name containing a non-ASCII Unicode letter or digit
passes the charset check. -/
theorem create_tool_name_rejection (s : TMState)
    (name description parameters code now : String) (outcome : LoadOutcome)
    (h : (dget s.tools name).isSome = true ∨
      py_isalnum (strip_underscores name) = false ∨
      py_startswith name "_" = true) :
    (ToolManager.create_tool s name description parameters code now outcome).2
      = s ∧
    (ToolManager.create_tool s name description parameters code now outcome).1
      ∈ ["❌ 工具 " ++ name ++ " 已存在。如需更新请使用 update_tool",
         "❌ 工具名只能包含字母、数字、下划线",
         "❌ 工具名不能以下划线开头"] := by
  by_cases h₁ : (dget s.tools name).isSome = true
  · simp [ToolManager.create_tool, h₁]
  · by_cases h₂ : py_isalnum (strip_underscores name) = true
    · have h₃ : py_startswith name "_" = true := by
        rcases h with h | h | h
        · exact absurd h h₁
        · rw [h₂] at h
          exact absurd h (by decide)
        · exact h
      simp [ToolManager.create_tool, h₁, h₂, h₃]
    · have h₂f : py_isalnum (strip_underscores name) = false :=
        Bool.eq_false_iff.mpr (fun hh => h₂ hh)
      simp [ToolManager.create_tool, h₁, h₂f]

theorem create_tool_name_rejection_witness :
    (ToolManager.create_tool ⟨[], [], []⟩ "_hidden" "d" "ps"
        "def run(): return 1" "t0" LoadOutcome.ok).2 = ⟨[], [], []⟩ ∧
    (ToolManager.create_tool ⟨[], [], []⟩ "_hidden" "d" "ps"
        "def run(): return 1" "t0" LoadOutcome.ok).1
      ∈ ["❌ 工具 _hidden 已存在。如需更新请使用 update_tool",
         "❌ 工具名只能包含字母、数字、下划线",
         "❌ 工具名不能以下划线开头"] :=
  create_tool_name_rejection ⟨[], [], []⟩ "_hidden" "d" "ps"
    "def run(): return 1" "t0" LoadOutcome.ok (by decide)

/-- Claim C1: when `create_tool` passes all pre-write validations
(fresh name, charset, no leading underscore, `def run(` present, no
denylisted substring) but the dynamic load fails (the import raises, or
the module lacks `run`), the rollback removes both the source file and
the manifest entry, the name was never registered in memory, and a
subsequent `create_tool` with the same name is not rejected as a
duplicate: with a loadable source it fully succeeds. -/
theorem create_tool_rollback_on_load_failure (s : TMState)
    (name description parameters code now now₂ : String)
    (outcome : LoadOutcome)
    (h₁ : dget s.tools name = none)
    (h₂ : py_isalnum (strip_underscores name) = true)
    (h₃ : py_startswith name "_" = false)
    (h₄ : (str_contains code "def run(" || str_contains code "def run (") = true)
    (h₅ : ToolManager.find_dangerous code = none)
    (h₆ : outcome ≠ LoadOutcome.ok) :
    dget (ToolManager.create_tool s name description parameters code now
        outcome).2.files name = none ∧
    dget (ToolManager.create_tool s name description parameters code now
        outcome).2.manifest name = none ∧
    dget (ToolManager.create_tool s name description parameters code now
        outcome).2.tools name = none ∧
    (ToolManager.create_tool
        (ToolManager.create_tool s name description parameters code now
          outcome).2 name description parameters code now₂ LoadOutcome.ok).1
      = "✅ 工具 「" ++ name ++ "」 创建成功！现在可以直接使用了。" ∧
    dget (ToolManager.create_tool
        (ToolManager.create_tool s name description parameters code now
          outcome).2 name description parameters code now₂
        LoadOutcome.ok).2.tools name
      = some ⟨description, parameters, false⟩ := by
  cases outcome with
  | ok => exact absurd rfl h₆
  | exec_raises msg =>
      simp [ToolManager.create_tool, ToolManager.load_single_tool,
        h₁, h₂, h₃, h₄, h₅, dget_dset_self, dget_ddel_self]
  | no_run =>
      simp [ToolManager.create_tool, ToolManager.load_single_tool,
        h₁, h₂, h₃, h₄, h₅, dget_dset_self, dget_ddel_self]

theorem create_tool_rollback_witness :
    dget (ToolManager.create_tool ⟨[], [], []⟩ "mytool" "d" "ps"
        "def run(): return 1" "t1" LoadOutcome.no_run).2.files "mytool"
      = none ∧
    dget (ToolManager.create_tool ⟨[], [], []⟩ "mytool" "d" "ps"
        "def run(): return 1" "t1" LoadOutcome.no_run).2.manifest "mytool"
      = none ∧
    dget (ToolManager.create_tool ⟨[], [], []⟩ "mytool" "d" "ps"
        "def run(): return 1" "t1" LoadOutcome.no_run).2.tools "mytool"
      = none ∧
    (ToolManager.create_tool
        (ToolManager.create_tool ⟨[], [], []⟩ "mytool" "d" "ps"
          "def run(): return 1" "t1" LoadOutcome.no_run).2 "mytool" "d" "ps"
        "def run(): return 1" "t2" LoadOutcome.ok).1
      = "✅ 工具 「" ++ "mytool" ++ "」 创建成功！现在可以直接使用了。" ∧
    dget (ToolManager.create_tool
        (ToolManager.create_tool ⟨[], [], []⟩ "mytool" "d" "ps"
          "def run(): return 1" "t1" LoadOutcome.no_run).2 "mytool" "d" "ps"
        "def run(): return 1" "t2" LoadOutcome.ok).2.tools "mytool"
      = some ⟨"d", "ps", false⟩ :=
  create_tool_rollback_on_load_failure ⟨[], [], []⟩ "mytool" "d" "ps"
    "def run(): return 1" "t1" "t2" LoadOutcome.no_run rfl (by decide)
    (by decide) (by decide) (by decide) (by decide)

theorem chat_go_all_tool_use (backend : Nat → List Message → BackendReply)
    (exec : String → String → String) (summary : List Message → SummaryReply)
    (um : String) (history : List Message)
    (hB : ∀ i msgs, ∃ r, backend i msgs = BackendReply.ok r ∧
      r.stop_reason = "tool_use") :
    ∀ (n : Nat) (msgs : List Message) (calls : Nat),
      (Agent.chat_go backend exec summary um history msgs n calls).calls
        = calls + n ∧
      (Agent.chat_go backend exec summary um history msgs n calls).history
        = history ∧
      ∃ tail, (Agent.chat_go backend exec summary um history msgs n calls).reply
        = Agent.too_complex_banner ++ tail := by
  intro n
  induction n with
  | zero =>
      intro msgs calls
      cases h : summary msgs with
      | ok blocks =>
          refine ⟨by simp [Agent.chat_go, h], by simp [Agent.chat_go, h],
            "\n\n**问题总结：**\n" ++ Agent.collect_text blocks, ?_⟩
          simp [Agent.chat_go, h, String.append_assoc]
      | fails => simp [Agent.chat_go, h]
  | succ n ih =>
      intro msgs calls
      obtain ⟨r, hr, hs⟩ := hB calls msgs
      have hred : Agent.chat_go backend exec summary um history msgs (n + 1) calls
          = Agent.chat_go backend exec summary um history
              (msgs ++
                [⟨"assistant", MsgContent.blocks r.content⟩,
                 ⟨"user", MsgContent.tool_results (Agent.run_tools exec r.content)⟩])
              n (calls + 1) := by
        simp only [Agent.chat_go]
        rw [hr]
        simp [hs]
      rw [hred]
      obtain ⟨H1, H2, H3⟩ := ih
        (msgs ++
          [⟨"assistant", MsgContent.blocks r.content⟩,
           ⟨"user", MsgContent.tool_results (Agent.run_tools exec r.content)⟩])
        (calls + 1)
      exact ⟨by rw [H1]; omega, H2, H3⟩

/-- Claim C3: against a backend whose every reply requests tool use, the
conversation loop makes exactly `max_iterations` main model calls, then
exits through the summarization epilogue and returns a non-empty string
beginning with the "task too complex" banner — for *every* summarization
oracle, i.e. also when the extra summarization call fails (the embedding
is total, mirroring the `try/except` boundaries of the source that let
no exception escape `chat`). -/
theorem chat_cap_terminates_and_summarizes
    (backend : Nat → List Message → BackendReply)
    (exec : String → String → String) (summary : List Message → SummaryReply)
    (um : String) (history : List Message) (n : Nat)
    (hB : ∀ i msgs, ∃ r, backend i msgs = BackendReply.ok r ∧
      r.stop_reason = "tool_use") :
    (Agent.chat backend exec summary um history n).calls = n ∧
    (∃ tail, (Agent.chat backend exec summary um history n).reply
      = Agent.too_complex_banner ++ tail) ∧
    (Agent.chat backend exec summary um history n).reply ≠ "" := by
  obtain ⟨H1, H2, H3⟩ := chat_go_all_tool_use backend exec summary um history hB
    n (history ++ [⟨"user", MsgContent.text um⟩]) 0
  unfold Agent.chat
  refine ⟨H1.trans (Nat.zero_add n), H3, ?_⟩
  obtain ⟨tail, ht⟩ := H3
  rw [ht]
  intro h0
  have hd := congrArg String.length h0
  rw [String.length_append, String.length_empty] at hd
  have hp : 0 < Agent.too_complex_banner.length := by decide
  omega

theorem chat_cap_witness :
    (Agent.chat (fun _ _ => BackendReply.ok ⟨"tool_use", []⟩) (fun _ _ => "")
        (fun _ => SummaryReply.fails) "hi" [] 2).calls = 2 ∧
    (∃ tail, (Agent.chat (fun _ _ => BackendReply.ok ⟨"tool_use", []⟩)
        (fun _ _ => "") (fun _ => SummaryReply.fails) "hi" [] 2).reply
      = Agent.too_complex_banner ++ tail) ∧
    (Agent.chat (fun _ _ => BackendReply.ok ⟨"tool_use", []⟩) (fun _ _ => "")
        (fun _ => SummaryReply.fails) "hi" [] 2).reply ≠ "" :=
  chat_cap_terminates_and_summarizes
    (fun _ _ => BackendReply.ok ⟨"tool_use", []⟩) (fun _ _ => "")
    (fun _ => SummaryReply.fails) "hi" [] 2
    (fun _ _ => ⟨⟨"tool_use", []⟩, rfl, rfl⟩)

theorem chat_go_api_error (backend : Nat → List Message → BackendReply)
    (exec : String → String → String) (summary : List Message → SummaryReply)
    (um : String) (history : List Message) (e : String) :
    ∀ (k n : Nat) (msgs : List Message) (calls : Nat), k < n →
      (∀ i msgs₂, i < k → ∃ r, backend (calls + i) msgs₂ = BackendReply.ok r ∧
        r.stop_reason = "tool_use") →
      (∀ msgs₂, backend (calls + k) msgs₂ = BackendReply.api_error e) →
      (Agent.chat_go backend exec summary um history msgs n calls).reply
        = "❌ API 调用失败: " ++ e ∧
      (Agent.chat_go backend exec summary um history msgs n calls).history
        = history := by
  intro k
  induction k with
  | zero =>
      intro n msgs calls hk _ herr
      obtain ⟨m, rfl⟩ : ∃ m, n = m + 1 := ⟨n - 1, by omega⟩
      have h := herr msgs
      rw [Nat.add_zero] at h
      simp only [Agent.chat_go]
      rw [h]
      exact ⟨rfl, rfl⟩
  | succ k ih =>
      intro n msgs calls hk hok herr
      obtain ⟨m, rfl⟩ : ∃ m, n = m + 1 := ⟨n - 1, by omega⟩
      obtain ⟨r, hr, hs⟩ := hok 0 msgs (Nat.succ_pos k)
      rw [Nat.add_zero] at hr
      have hred : Agent.chat_go backend exec summary um history msgs (m + 1) calls
          = Agent.chat_go backend exec summary um history
              (msgs ++
                [⟨"assistant", MsgContent.blocks r.content⟩,
                 ⟨"user", MsgContent.tool_results (Agent.run_tools exec r.content)⟩])
              m (calls + 1) := by
        simp only [Agent.chat_go]
        rw [hr]
        simp [hs]
      rw [hred]
      apply ih m _ (calls + 1) (by omega)
      · intro i msgs₂ hi
        have h := hok (i + 1) msgs₂ (by omega)
        rw [show calls + 1 + i = calls + (i + 1) from by omega]
        exact h
      · intro msgs₂
        have h := herr msgs₂
        rw [show calls + 1 + k = calls + (k + 1) from by omega]
        exact h

/-- Claim C7: if the `k`-th main model call raises an API-level error
(after tool-use replies on every earlier call), `chat` returns the
formatted error string paired with exactly the history the caller
passed in — the transcript built inside the loop (`history` plus the
user turn and any tool turns) is a fresh list, and the caller's
`history` is what comes back unchanged. -/
theorem chat_backend_error_returns_history
    (backend : Nat → List Message → BackendReply)
    (exec : String → String → String) (summary : List Message → SummaryReply)
    (um : String) (history : List Message) (n k : Nat) (e : String)
    (hk : k < n)
    (hok : ∀ i msgs, i < k → ∃ r, backend i msgs = BackendReply.ok r ∧
      r.stop_reason = "tool_use")
    (herr : ∀ msgs, backend k msgs = BackendReply.api_error e) :
    (Agent.chat backend exec summary um history n).reply
      = "❌ API 调用失败: " ++ e ∧
    (Agent.chat backend exec summary um history n).history = history := by
  unfold Agent.chat
  apply chat_go_api_error backend exec summary um history e k n _ 0 hk
  · intro i msgs hi
    rw [Nat.zero_add]
    exact hok i msgs hi
  · intro msgs
    rw [Nat.zero_add]
    exact herr msgs

theorem chat_backend_error_witness :
    (Agent.chat (fun _ _ => BackendReply.api_error "boom") (fun _ _ => "")
        (fun _ => SummaryReply.fails) "hi"
        [⟨"user", MsgContent.text "old"⟩] 20).reply
      = "❌ API 调用失败: " ++ "boom" ∧
    (Agent.chat (fun _ _ => BackendReply.api_error "boom") (fun _ _ => "")
        (fun _ => SummaryReply.fails) "hi"
        [⟨"user", MsgContent.text "old"⟩] 20).history
      = [⟨"user", MsgContent.text "old"⟩] :=
  chat_backend_error_returns_history
    (fun _ _ => BackendReply.api_error "boom") (fun _ _ => "")
    (fun _ => SummaryReply.fails) "hi" [⟨"user", MsgContent.text "old"⟩]
    20 0 "boom" (by omega)
    (fun i _ hi => absurd hi (Nat.not_lt_zero i)) (fun _ => rfl)
